import Mathlib

/-!
# Verification of the streaming voice pipeline and TTS concatenation engine

Shallow embedding of the per-session voice pipeline
(`voice-service/app/services/voice_interface.py`,
`voice-service/app/api/voice.py`) and of the TTS segment concatenation
(`tts-service/app/services/tts_service.py`).

Conventions of the embedding:
* float32 samples, timestamps and scores are modelled as `ℚ` (exact
  arithmetic in place of IEEE floats);
* opaque model calls (the streaming VAD model, the KWS wake model, the
  speaker-verification model) are oracle inputs: each chunk carries the
  VAD model's verdict, the KWS outcome is an `Option String`, SV scores
  are `Option ℚ`;
* file I/O (saving the enrollment WAV) is abstracted by a `saveOk : Bool`
  oracle; a successful save yields an abstract path handle;
* logging, debug statistics, and the `experimental_sv_*` buffers (which
  touch no field read anywhere else) are omitted.
-/

set_option maxRecDepth 4096

namespace VoicePipeline

/-! ## Constants (voice_interface.py module-level configuration) -/

/-- `STREAMING_TARGET_SAMPLE_RATE = 16000`. -/
def sampleRate : ℚ := 16000

/-- `STREAMING_SILENCE_THRESHOLD = 2.0` (seconds of silence that trigger finalize). -/
def silenceThreshold : ℚ := 2

/-- `STREAMING_VAD_ENERGY_THRESHOLD = 0.03`. -/
def vadEnergyThreshold : ℚ := 3/100

/-- `STREAMING_VAD_MAX_THRESHOLD = 0.17`. -/
def vadMaxThreshold : ℚ := 17/100

/-- `STREAMING_VAD_USE_AND_LOGIC = True`. -/
def vadUseAndLogic : Bool := true

/-- `self.min_enroll_seconds = 5.0`. -/
def minEnrollSeconds : ℚ := 5

/-- `self.sv_threshold = 0.40`. -/
def svThreshold : ℚ := 2/5

/-- `int(self.pre_speech_max_duration * STREAMING_TARGET_SAMPLE_RATE)` =
`int(0.4 * 16000)` = 6400 samples. -/
def preSpeechCap : Nat := 6400

/-- `int(self.kws_min_duration * STREAMING_TARGET_SAMPLE_RATE)` =
`int(1.6 * 16000)` = 25600 samples. -/
def kwsWindowCap : Nat := 25600

/-- `self.kws_min_duration = 1.6` seconds. -/
def kwsMinDuration : ℚ := 8/5

/-! ## Audio chunks and the per-chunk VAD decision (`process_chunk`, step 1) -/

/-- One incoming 16 kHz mono chunk.  `samples` is the decoded float32 data;
`vadSpeech` is the opaque streaming-VAD model's verdict for this chunk
(`True` iff the model call succeeded and emitted at least one speech
segment; an exception in the model call is already folded into `false`). -/
structure Chunk where
  samples : List ℚ
  vadSpeech : Bool

/-- Executable absolute value on `ℚ` (`np.abs`). -/
def absQ (x : ℚ) : ℚ := if x < 0 then -x else x

/-- Executable max on `ℚ` (`np.max`). -/
def maxQ (x y : ℚ) : ℚ := if x ≤ y then y else x

/-- `audio_energy = np.mean(np.abs(audio_np))`. -/
def audioEnergy (c : Chunk) : ℚ :=
  (c.samples.map absQ).sum / (c.samples.length : ℚ)

/-- `audio_max = np.max(np.abs(audio_np))` (0 for an empty chunk). -/
def audioMax (c : Chunk) : ℚ :=
  (c.samples.map absQ).foldr maxQ 0

/-- The energy decision (`is_speech_energy`): with the AND policy
(configured default) both the mean-energy and the peak threshold must be
exceeded, otherwise either suffices. -/
def isSpeechEnergy (c : Chunk) : Bool :=
  if vadUseAndLogic then
    decide (vadEnergyThreshold < audioEnergy c) && decide (vadMaxThreshold < audioMax c)
  else
    decide (vadEnergyThreshold < audioEnergy c) || decide (vadMaxThreshold < audioMax c)

/-- The final per-chunk speech decision of `process_chunk`
(voice_interface.py line 1606): `is_speech = is_speech_energy`.
The OR with the VAD-model verdict is commented out in the source. -/
def chunkIsSpeech (c : Chunk) : Bool := isSpeechEnergy c

/-- The per-chunk speech decision used by the `WAITING_FOR_ENROLLMENT`
handler in voice.py (line 484): `is_speech = is_speech_energy or is_speech_vad`. -/
def enrollIsSpeech (c : Chunk) : Bool := isSpeechEnergy c || c.vadSpeech

/-! ## Speaker-verification decision (`_is_sv_verified`) -/

/-- `StreamingASRSession._is_sv_verified(verdict_text, score)`:
`None` score fails; `score >= threshold` passes; `score < threshold`
fails; the remaining verdict-text branches are kept as in the source
(they are unreachable for rational scores). -/
def isSvVerified (verdictText : Option String) (score : Option ℚ) : Bool :=
  match score with
  | none => false
  | some sc =>
    if svThreshold ≤ sc then true
    else if sc < svThreshold then false
    else if verdictText = some "yes" then true
    else if verdictText = some "no" then false
    else false

/-! ## The `use_llm` effective flag (voice.py lines 334–342) -/

/-- `default_use_llm = not (voice_config and voice_config.voice_disable_llm)`
with a voice config present. -/
def defaultUseLlm (disableLlm : Bool) : Bool := !disableLlm

/-- The effective `use_llm` flag after reading the per-message parameter
and then applying the global-config override:
`use_llm = bool(use_llm_param) if use_llm_param is not None else default_use_llm`,
followed by `if voice_config.voice_disable_llm: use_llm = True`
(voice.py lines 338–342, verbatim: the override sets `True`). -/
def effectiveUseLlm (disableLlm : Bool) (useLlmParam : Option Bool) : Bool :=
  let u := useLlmParam.getD (defaultUseLlm disableLlm)
  if disableLlm then true else u

/-- Whether the LLM correction pass runs on a finalized result
(voice.py line 818: `if use_llm and corrected_text:`). -/
def llmPassApplied (disableLlm : Bool) (useLlmParam : Option Bool)
    (correctedText : String) : Bool :=
  effectiveUseLlm disableLlm useLlmParam && decide (correctedText ≠ "")

/-! ## Session state (`StreamingASRSession.__init__`)

Opaque model caches (`vad_cache`, `asr_cache`, `kws_cache`, `kws_vad_cache`)
and the `experimental_sv_*` buffers carry no information read by the
control flow and are omitted.  `tail_protection_start_time` is only ever
written (always back to `None`) and is omitted as well. -/

/-- The four session modes. -/
inductive Mode where
  | waitingForWakeup
  | waitingForEnrollment
  | waitingForEnrollmentConfirm
  | asrActive
deriving DecidableEq, Repr

/-- The per-connection session state. Buffers are float32 sample lists;
times are monotonic-clock readings.  `enrollLastVoiceTime` /
`enrollFirstSpeechTime` are `Option` because the Python code creates /
deletes these attributes dynamically (`hasattr` / `delattr`). -/
structure Session where
  mode : Mode
  useWake : Bool
  isActivated : Bool
  useSpeakerVerification : Bool
  isEnrolled : Bool
  enrollAudioBuffer : List ℚ
  enrollAudioPath : Option String
  enrollHasDetectedSpeech : Bool
  enrollFirstSpeechTime : Option ℚ
  enrollLastVoiceTime : Option ℚ
  enrollSilenceTimer : ℚ
  audioBuffer : List ℚ
  preSpeechBuffer : List ℚ
  silenceTimer : ℚ
  lastVoiceTime : ℚ
  hasDetectedSpeech : Bool
  silenceChunkCount : Nat
  isCompleted : Bool
  accumulatedIntermediateText : String
  kwsAudioBuffer : List ℚ

/-- The freshly constructed session (`__init__`), with `t0` standing for
the `time.time()` reading taken at construction. -/
def initSession (t0 : ℚ) : Session where
  mode := Mode.waitingForWakeup
  useWake := true
  isActivated := false
  useSpeakerVerification := true
  isEnrolled := false
  enrollAudioBuffer := []
  enrollAudioPath := none
  enrollHasDetectedSpeech := false
  enrollFirstSpeechTime := none
  enrollLastVoiceTime := none
  enrollSilenceTimer := 0
  audioBuffer := []
  preSpeechBuffer := []
  silenceTimer := 0
  lastVoiceTime := t0
  hasDetectedSpeech := false
  silenceChunkCount := 0
  isCompleted := false
  accumulatedIntermediateText := ""
  kwsAudioBuffer := []

/-- Sliding-window FIFO retention: keep only the most recent `cap`
samples (`buffer[-cap:]` once the length exceeds the cap). -/
def slidingWindow (cap : Nat) (l : List ℚ) : List ℚ :=
  if cap < l.length then l.drop (l.length - cap) else l

/-! ## `StreamingASRSession.process_chunk` (ASR_ACTIVE chunk processing) -/

/-- Step 2 of `process_chunk`: the in-band SV enrollment logic.
With SV enabled, not yet enrolled and a speech chunk: an activated
session accumulates the chunk into `enroll_audio_buffer` and, once the
buffer holds at least `min_enroll_seconds` of audio, persists it
(`saveOk`) and sets `is_enrolled`; a non-activated session instead gets
any accumulated enrollment audio discarded (security guard,
voice_interface.py lines 1633–1660). -/
def processChunkEnroll (s : Session) (c : Chunk) (saveOk : Bool) : Session :=
  if s.useSpeakerVerification && !s.isEnrolled && chunkIsSpeech c && s.isActivated then
    let buf := s.enrollAudioBuffer ++ c.samples
    if minEnrollSeconds ≤ (buf.length : ℚ) / sampleRate then
      if saveOk then
        { s with enrollAudioPath := some "sv_enroll/enroll.wav",
                 isEnrolled := true, enrollAudioBuffer := [] }
      else { s with enrollAudioBuffer := buf }
    else { s with enrollAudioBuffer := buf }
  else if s.useSpeakerVerification && !s.isEnrolled && chunkIsSpeech c && !s.isActivated then
    { s with enrollAudioBuffer := [] }
  else s

/-- Step 3 of `process_chunk`: silence-timer bookkeeping and audio
accumulation.  On speech: reset timers, mark speech detected, prepend a
non-empty pre-speech buffer, append the chunk.  On silence after speech:
append only the first two silence chunks (tail margin), then update the
silence timer.  On silence before any speech: maintain the 0.4 s
pre-speech FIFO window (voice_interface.py lines 1671–1747). -/
def processChunkAudio (s : Session) (c : Chunk) (now : ℚ) : Session :=
  if chunkIsSpeech c then
    let s := { s with silenceTimer := 0, lastVoiceTime := now,
                      hasDetectedSpeech := true, silenceChunkCount := 0 }
    let s :=
      if s.preSpeechBuffer.isEmpty then s
      else { s with audioBuffer := s.audioBuffer ++ s.preSpeechBuffer,
                    preSpeechBuffer := [] }
    { s with audioBuffer := s.audioBuffer ++ c.samples }
  else
    if s.hasDetectedSpeech then
      let s :=
        if s.silenceChunkCount < 2 then
          { s with audioBuffer := s.audioBuffer ++ c.samples,
                   silenceChunkCount := s.silenceChunkCount + 1 }
        else s
      { s with silenceTimer := now - s.lastVoiceTime }
    else
      { s with preSpeechBuffer := slidingWindow preSpeechCap (s.preSpeechBuffer ++ c.samples),
               silenceTimer := 0 }

/-- Step 5 of `process_chunk`: the finalize predicate
`silence_timer >= STREAMING_SILENCE_THRESHOLD and len(audio_buffer) > 0
and has_detected_speech`. -/
def shouldFinalizeOf (s : Session) : Bool :=
  decide (silenceThreshold ≤ s.silenceTimer) &&
  decide ((0 : Nat) < s.audioBuffer.length) && s.hasDetectedSpeech

/-- One `process_chunk` call.  `now` is `time.time()`; `saveOk` tells
whether `_save_enroll_sample()` succeeds (returns a path).  Returns the
updated session and the `should_finalize` flag (the returned
`intermediate_text` is always `""` in the source and is dropped here).
The source's numbered steps appear as `processChunkEnroll` (step 2),
`processChunkAudio` (step 3) and `shouldFinalizeOf` (step 5); step 1 is
the chunk's VAD decision `chunkIsSpeech`, step 4 is commented out in the
source, and step 6 (the experimental chunk-level SV) touches only the
`experimental_sv_*` buffers. -/
def processChunk (s : Session) (c : Chunk) (now : ℚ) (saveOk : Bool) :
    Session × Bool :=
  let s := processChunkEnroll s c saveOk
  let s := processChunkAudio s c now
  (s, shouldFinalizeOf s)

/-- Folding `process_chunk` over a timed chunk sequence
(each element pairs the chunk with its `time.time()` reading). -/
def runChunks (s : Session) : List (Chunk × ℚ) → Session
  | [] => s
  | (c, t) :: rest => runChunks (processChunk s c t true).1 rest

/-- Whether any `process_chunk` call in the sequence reports
`should_finalize`. -/
def anyFinalize (s : Session) : List (Chunk × ℚ) → Bool
  | [] => false
  | (c, t) :: rest =>
    (processChunk s c t true).2 || anyFinalize (processChunk s c t true).1 rest

/-! ## The `WAITING_FOR_ENROLLMENT` audio handler (voice.py lines 447–591) -/

/-- VAD bookkeeping of the enrollment handler (steps 1–2): here the
speech decision is `is_speech_energy or is_speech_vad`, first speech
stamps `enroll_first_speech_time`, and the silence timer is derived
from `enroll_last_voice_time` (with Python truthiness on the timestamp). -/
def enrollVadUpdate (s : Session) (c : Chunk) (now : ℚ) : Session :=
  if enrollIsSpeech c then
    let s :=
      if s.enrollHasDetectedSpeech then s
      else { s with enrollHasDetectedSpeech := true, enrollFirstSpeechTime := some now }
    { s with enrollLastVoiceTime := some now, enrollSilenceTimer := 0 }
  else
    match s.enrollLastVoiceTime with
    | some t =>
      if t ≠ 0 then { s with enrollSilenceTimer := now - t }
      else { s with enrollSilenceTimer := 0 }
    | none => { s with enrollLastVoiceTime := some now, enrollSilenceTimer := 0 }

/-- `enroll_duration_from_first_speech`: `now - enroll_first_speech_time`
when the stamp is present and truthy, else `0.0`. -/
def enrollDurationFromFirstSpeech (s : Session) (now : ℚ) : ℚ :=
  match s.enrollFirstSpeechTime with
  | some t => if t ≠ 0 then now - t else 0
  | none => 0

/-- Result of one enrollment-mode audio message: the updated session and
whether `enrollment_completed` was emitted. -/
structure EnrollOutcome where
  session : Session
  accepted : Bool

/-- One audio chunk handled in `WAITING_FOR_ENROLLMENT` (voice.py
lines 447–591): VAD bookkeeping, accumulation once speech has been
detected, the conjunctive auto-switch condition
(`enroll_duration_from_first_speech >= min_enroll_seconds` and
`enroll_silence_timer >= 2.0`), and on acceptance (with a successful
save) the transition to `WAITING_FOR_ENROLLMENT_CONFIRM`. -/
def enrollmentStep (s : Session) (c : Chunk) (now : ℚ) (saveOk : Bool) :
    EnrollOutcome :=
  let s := enrollVadUpdate s c now
  if s.enrollHasDetectedSpeech then
    -- The source appends the chunk to `enroll_audio_buffer` first and
    -- then computes the auto-switch conditions; the conditions read only
    -- the timing fields and `is_enrolled`, which the append leaves
    -- untouched, so they are computed here before the append.
    let cond1 := decide (minEnrollSeconds ≤ enrollDurationFromFirstSpeech s now)
    let cond2 := decide ((2 : ℚ) ≤ s.enrollSilenceTimer)
    let notEnrolled := !s.isEnrolled
    let s := { s with enrollAudioBuffer := s.enrollAudioBuffer ++ c.samples }
    if cond1 && cond2 && notEnrolled then
      if saveOk then
        { session :=
            { s with enrollAudioPath := some "sv_enroll/enroll.wav",
                     isEnrolled := true, enrollAudioBuffer := [],
                     mode := Mode.waitingForEnrollmentConfirm,
                     enrollLastVoiceTime := none, enrollSilenceTimer := 0,
                     enrollHasDetectedSpeech := false, enrollFirstSpeechTime := none },
          accepted := true }
      else { session := s, accepted := false }
    else { session := s, accepted := false }
  else { session := s, accepted := false }

/-! ## The `WAITING_FOR_WAKEUP` audio handler and the wake transition -/

/-- Events emitted to the client that matter to the claims. -/
inductive Event where
  | wakeupActivated
  | enrollmentCompleted
deriving DecidableEq, Repr

/-- Wake outcome parsing (`_perform_kws_detection`): the oracle
`kws` is the extracted `wake_text` of the KWS model (`none` when the
result carries no text).  Wake fires iff the text is non-empty and not
the literal `"rejected"`. -/
def kwsWake (kws : Option String) : Bool :=
  match kws with
  | some t => decide (t ≠ "") && decide (t ≠ "rejected")
  | none => false

/-- One audio chunk handled in `WAITING_FOR_WAKEUP`
(`process_wakeup_chunk` + `_perform_kws_detection` + the voice.py
`is_wakeup` branch, lines 375–423).  Mirrors the source:
* every chunk is appended to the 1.6 s sliding KWS window;
* detection runs once the window holds at least `kws_min_duration`;
* on wake the KWS buffer and the ASR state listed at
  voice_interface.py lines 1450–1459 are cleared (`audio_buffer`,
  caches, accumulated text, silence timer, `last_voice_time`,
  `is_completed`) — note `pre_speech_buffer`, `has_detected_speech`
  and `silence_chunk_count` are NOT touched — then voice.py sets
  `is_activated`, switches the mode, emits `wakeup:activated`, and
  `continue`s so the chunk reaches no downstream processing;
* on a failed detection the KWS buffer is cleared and a stale
  `is_activated` flag is reset. -/
def wakeupStep (s : Session) (c : Chunk) (now : ℚ) (kws : Option String) :
    Session × List Event :=
  let buf := slidingWindow kwsWindowCap (s.kwsAudioBuffer ++ c.samples)
  let s := { s with kwsAudioBuffer := buf }
  if kwsMinDuration ≤ (buf.length : ℚ) / sampleRate then
    if kwsWake kws then
      let s := { s with kwsAudioBuffer := [],
                        audioBuffer := [],
                        accumulatedIntermediateText := "",
                        silenceTimer := 0, lastVoiceTime := now,
                        isCompleted := false }
      let s := { s with isActivated := true, mode := Mode.waitingForEnrollment }
      (s, [Event.wakeupActivated])
    else
      let s := { s with kwsAudioBuffer := [] }
      let s := if s.isActivated then { s with isActivated := false } else s
      (s, [])
  else
    let s := if s.isActivated then { s with isActivated := false } else s
    (s, [])

/-! ## Text post-processing (finalize tail check + voice.py hard corrections)

All string manipulation is done on `List Char`; Python's `str.strip()` is
`pyStrip`, `str.replace` is `replaceAll` (leftmost, non-overlapping),
the character-class regexes are character filters.  Python's `\s` is
modelled by `Char.isWhitespace` (space, tab, CR, LF). -/

/-- The punctuation/whitespace class of the source regexes, as Python
parses the single-quoted literal: the `''` inside it closes and reopens
the string, so the effective class is
`[，。！？、；：""（）【】《》〈〉「」『』〔〕〖〗…—～·\s]` — it holds the
ASCII double quote and no apostrophe and no curly quotes. -/
def punctuationChars : List Char :=
  "，。！？、；：\"（）【】《》〈〉「」『』〔〕〖〗…—～·".toList

/-- Membership in the punctuation class (including whitespace). -/
def isPunctChar (ch : Char) : Bool :=
  punctuationChars.contains ch || ch.isWhitespace

/-- `re.sub(punctClass, '', t)`: remove punctuation and whitespace. -/
def stripPunct (t : String) : String :=
  String.mk (t.toList.filter (fun ch => !(isPunctChar ch)))

/-- Python `str.strip()`. -/
def pyStrip (t : String) : String :=
  String.mk (((t.toList.dropWhile Char.isWhitespace).reverse.dropWhile
      Char.isWhitespace).reverse)

/-- The 16-character interjection class of the hard-correction regex
`[嗯哈哼噗砰呀嗷啊哦额呃诶唉哎呦妈]` (voice.py line 807). -/
def interjectionChars16 : List Char := "嗯哈哼噗砰呀嗷啊哦额呃诶唉哎呦妈".toList

/-- The 14-character interjection set used by the finalize empty-result
check (voice_interface.py line 2283) — it lacks `呦` and `妈`. -/
def interjectionChars14 : List Char := "嗯哈哼噗砰呀嗷啊哦额呃诶唉哎".toList

/-- Sentinel for an empty recognition result. -/
def ASR_RESULT_EMPTY : String := "__ASR_RESULT_EMPTY__"

/-- Sentinel for a failed speaker verification. -/
def SV_VERIFICATION_FAILED : String := "__SV_VERIFICATION_FAILED__"

/-- Sentinel for an unauthenticated (non-activated) session. -/
def SV_NOT_ACTIVATED : String := "__SV_NOT_ACTIVATED__"

/-- The tail of `finalize()` (voice_interface.py lines 2275–2303) applied
to the text produced by the SV gate: empty or whitespace-only text, text
whose punctuation-stripped form is empty, and text whose stripped form
consists solely of the 14 filtered interjections are all turned into
`ASR_RESULT_EMPTY`; otherwise the stripped (`str.strip()`) text is
returned. -/
def finalizeTextFilter (finalText : String) : String :=
  if finalText = "" || pyStrip finalText = "" then ASR_RESULT_EMPTY
  else
    let cleaned := pyStrip finalText
    let tw := stripPunct cleaned
    if tw ≠ "" then
      if tw.toList.all (fun ch => interjectionChars14.contains ch) then ASR_RESULT_EMPTY
      else cleaned
    else ASR_RESULT_EMPTY

/-- Leftmost-match test: does `p` start the list? (`str.startswith`). -/
def leadsWith : List Char → List Char → Bool
  | [], _ => true
  | _ :: _, [] => false
  | a :: as, b :: bs => a == b && leadsWith as bs

/-- Fuelled worker for `replaceAll`; the fuel bounds the scan length, so
the recursion is structural and kernel-computable. -/
def replaceFuel (p r : List Char) : Nat → List Char → List Char
  | 0, l => l
  | _ + 1, [] => []
  | n + 1, c :: cs =>
    if leadsWith p (c :: cs) then r ++ replaceFuel p r n (List.drop (p.length - 1) cs)
    else c :: replaceFuel p r n cs

/-- Python `t.replace(p, r)`: replace every leftmost non-overlapping
occurrence of `p` by `r`. -/
def replaceAll (t p r : String) : String :=
  String.mk (replaceFuel p.toList r.toList t.toList.length t.toList)

/-- The fixed global substitutions of voice.py (passes 2–14), in source
order.  The source guards each pass with an `in`-containment test, which
is behaviourally the identity when the pattern is absent and is therefore
dropped here. -/
def substitutionRules : List (String × String) :=
  [("前妻", "前期"), ("黑边", "黑便"), ("黑变", "黑便"),
   ("腾", "疼"), ("藤", "疼"), ("滕", "疼"), ("誊", "疼"),
   ("壳", "咳"), ("气势", "前期"),
   ("串", "喘"), ("川", "喘"),
   ("涨", "胀"), ("账", "胀"),
   ("脱腾", "头疼"), ("拖腾", "头疼"), ("拖疼", "头疼"), ("脱疼", "头疼"),
   ("游离", "油腻"), ("游历", "油腻"),
   ("颜面不通", "颜面部痛"), ("即性", "急性"),
   ("犯罪症状", "伴随症状"),
   ("树叶", "输液"), ("书页", "输液"), ("术业", "输液"), ("树业", "输液")]

/-- Apply the substitution passes in order. -/
def applySubstitutions (t : String) : String :=
  substitutionRules.foldl (fun acc pr => replaceAll acc pr.1 pr.2) t

/-- The closed set of single-token homophones replaced by `无` when they
form the whole text (pass 1). -/
def wuHomophones : List String := ["五", "乌", "吴", "屋", "舞", "5", "午", "吾", "芜"]

/-- Pass 15: `re.sub(r'[嗯哈哼噗砰呀嗷啊哦额呃诶唉哎呦妈]+', '', t)`. -/
def stripInterjections (t : String) : String :=
  String.mk (t.toList.filter (fun ch => !(interjectionChars16.contains ch)))

/-- The deterministic hard-correction chain of voice.py (lines 666–815):
whole-text `无`-homophone replacement (computed on the
punctuation-stripped, stripped text), then the global substitutions in
source order, then interjection stripping. -/
def hardCorrect (t : String) : String :=
  let t1 := if wuHomophones.contains (stripPunct (pyStrip t)) then "无" else t
  let t2 := applySubstitutions t1
  stripInterjections t2

/-- The text remaining once punctuation and all 16 interjection
characters are removed (the claim's notion of "stripped" content). -/
def strippedContent (t : String) : String :=
  String.mk (t.toList.filter
    (fun ch => !(isPunctChar ch) && !(interjectionChars16.contains ch)))

/-- The `result` reply relevant to the claims. -/
structure ResultMsg where
  success : Bool
  text : String
  message : Option String
deriving DecidableEq, Repr

/-- The user-facing retry message. -/
def retryMessage : String := "抱歉，请再说一遍！"

/-- The `result` emission of the ASR_ACTIVE finalize branch (voice.py
lines 635–874): sentinels map to `success=false` replies; any other
non-empty text goes through the hard-correction chain and is emitted
with `success=true`.  The LLM pass (step 16) is modelled by the
deterministic identity stub of the claim — it never changes the text,
and is skipped outright when the corrected text is empty — so the
emitted text is the hard-corrected text either way. -/
def emitResult (finalText : String) : ResultMsg :=
  if finalText = SV_VERIFICATION_FAILED then ⟨false, "", some retryMessage⟩
  else if finalText = SV_NOT_ACTIVATED then ⟨false, "", some "非认证注册声音，拒绝访问。"⟩
  else if finalText = ASR_RESULT_EMPTY then ⟨false, "", some retryMessage⟩
  else if finalText ≠ "" then ⟨true, hardCorrect finalText, none⟩
  else ⟨false, "", some retryMessage⟩

end VoicePipeline

namespace TTSConcat

/-! ## TTS segment concatenation (`tts_service.py`)

PCM data is modelled as `List Int` of 16-bit mono samples (the claim's
premise: identical rate/channels, 16-bit width — `sw = 2`, `nch = 1`).
Python floats in the crossfade weights become exact rationals;
`int(...)` truncation toward zero is `truncQ`. -/

/-- `int(sr * ms / 1000.0)`: frames in `ms` milliseconds at rate `sr`. -/
def msToFrames (sr ms : Nat) : Nat := sr * ms / 1000

/-- `self._pause_soft_ms = 120`. -/
def pauseSoftMs : Nat := 120

/-- `self._pause_hard_ms = 200`. -/
def pauseHardMs : Nat := 200

/-- `self._crossfade_ms = 60`. -/
def crossfadeMsDefault : Nat := 60

/-- A synthesized segment: its text (which decides the following pause)
and its decoded PCM samples. -/
structure Segment where
  text : String
  pcm : List Int

/-- The strong-punctuation set `"。！？；\n"` deciding the hard pause. -/
def strongTailChars : List Char := "。！？；\n".toList

/-- The inter-segment pause after a segment
(`_process_tts_task_sync`, lines 665–671): 200 ms when the segment ends
in strong punctuation, else 120 ms.  (For an empty segment the source
computes `"" in "。！？；\n"`, which is `True` in Python, hence the hard
pause; segments are non-empty in practice.) -/
def pauseForSegment (t : String) : Nat :=
  match t.toList.getLast? with
  | some ch => if strongTailChars.contains ch then pauseHardMs else pauseSoftMs
  | none => pauseHardMs

/-- `pauses_ms`: one pause per boundary (all segments but the last). -/
def pausesFor (segs : List Segment) : List Nat :=
  segs.dropLast.map (fun g => pauseForSegment g.text)

/-- Python `int()`: truncation toward zero on an exact rational. -/
def truncQ (x : ℚ) : Int := if 0 ≤ x then ⌊x⌋ else ⌈x⌉

/-- The int16 clamp of the crossfade mixer. -/
def clampInt16 (v : Int) : Int :=
  if v > 32767 then 32767 else if v < -32768 then -32768 else v

/-- `_crossfade_frames`: linear fade across the boundary.  Degenerates to
no crossfade when the fade length is zero or either side is shorter than
the fade window.  The weights are `w_a(i) = (n-1-i)/(n-1)` and
`w_b(i) = i/(n-1)` with sample-wise truncation and int16 clamping. -/
def crossfadeFrames (a b : List Int) (fadeMs sr : Nat) : List Int × List Int :=
  if fadeMs = 0 then (a, b)
  else
    let fadeN := msToFrames sr fadeMs
    if fadeN = 0 then (a, b)
    else if a.length < fadeN || b.length < fadeN then (a, b)
    else
      let aHead := a.take (a.length - fadeN)
      let aTail := a.drop (a.length - fadeN)
      let bHead := b.take fadeN
      let bTail := b.drop fadeN
      let mixed := (List.range fadeN).map (fun (i : Nat) =>
        let wa : ℚ := if 1 < fadeN then ((fadeN : ℚ) - 1 - i) / ((fadeN : ℚ) - 1) else 0
        let wb : ℚ := if 1 < fadeN then (i : ℚ) / ((fadeN : ℚ) - 1) else 1
        clampInt16 (truncQ (((aTail.getD i 0 : Int) : ℚ) * wa + ((bHead.getD i 0 : Int) : ℚ) * wb)))
      (aHead ++ mixed, bTail)

/-- The accumulation loop of `_concat_wavs_smooth`: insert the boundary
silence (when positive), then crossfade the running output against the
next segment. `ps.headD 0` mirrors `pauses_ms[i-1] if i-1 < len(...) else 0`. -/
def concatLoop (fadeMs sr : Nat) : List Int → List (List Int) → List Nat → List Int
  | out, [], _ => out
  | out, b :: rest, ps =>
    let pause := ps.headD 0
    let out := if 0 < pause then out ++ List.replicate (msToFrames sr pause) 0 else out
    let fb := crossfadeFrames out b fadeMs sr
    concatLoop fadeMs sr (fb.1 ++ fb.2) rest ps.tail

/-- `_concat_wavs_smooth` on a list of decoded PCM payloads. -/
def concatWavsSmooth (wavList : List (List Int)) (pausesMs : List Nat)
    (crossfadeMs sr : Nat) : List Int :=
  match wavList with
  | [] => []
  | pcm0 :: rest => concatLoop crossfadeMs sr pcm0 rest pausesMs

end TTSConcat

namespace VoicePipeline

/-! ## Theorems -/

/-- C1 counterexample: a chunk that the VAD model flags as speech but
whose energy decision is negative.  The code's final decision is `false`,
while `isSpeechEnergy ∨ isSpeechVad` is `true`: the claimed final OR
does not hold (voice_interface.py line 1606 uses the energy decision
alone; the OR is commented out). -/
theorem chunkIsSpeech_ne_or_on_vad_only_chunk :
    chunkIsSpeech ⟨[0], true⟩ = false ∧
    (isSpeechEnergy ⟨[0], true⟩ || (⟨[0], true⟩ : Chunk).vadSpeech) = true := by
  have he : isSpeechEnergy ⟨[0], true⟩ = false := by
    simp [isSpeechEnergy, audioEnergy, audioMax, absQ, maxQ, vadUseAndLogic,
      vadEnergyThreshold, vadMaxThreshold]
    norm_num
  exact ⟨he, by simp [he]⟩

/-- C1 (amended): in `ASR_ACTIVE`, the per-chunk speech decision equals
the energy decision alone; the VAD-model verdict is computed but ignored. -/
theorem chunkIsSpeech_eq_energy (c : Chunk) :
    chunkIsSpeech c = isSpeechEnergy c := rfl

/-- C2: a speaker group passes the finalize-time SV gate iff its parsed
score is non-null and at least `svThreshold`; a null score always fails.
In particular at a score exactly equal to the threshold the group passes
(the verdict-text branches of `_is_sv_verified` are unreachable). -/
theorem isSvVerified_iff (v : Option String) (score : Option ℚ) :
    isSvVerified v score = true ↔ ∃ sc, score = some sc ∧ svThreshold ≤ sc := by
  cases score with
  | none => simp [isSvVerified]
  | some sc =>
    by_cases h : svThreshold ≤ sc
    · simp [isSvVerified, h]
    · have hlt : sc < svThreshold := lt_of_not_ge h
      simp only [isSvVerified, if_neg h, if_pos hlt]
      simp [h]

/-- C3: when the global `VOICE_DISABLE_LLM` flag is set, the effective
`use_llm` flag is forced to `True` (voice.py line 342), so the LLM pass
runs on every non-empty corrected text, whatever the client sent. -/
theorem llm_pass_applied_when_globally_disabled
    (p : Option Bool) (t : String) (h : t ≠ "") :
    llmPassApplied true p t = true := by
  simp [llmPassApplied, effectiveUseLlm, h]

/-- C3 witness: global disable set, client explicitly sends `use_llm=false`,
finalized text `"头疼"`: the LLM pass still runs. -/
theorem llm_pass_applied_when_globally_disabled_witness :
    llmPassApplied true (some false) "头疼" = true :=
  llm_pass_applied_when_globally_disabled (some false) "头疼" (by decide)

/-! ### Field-preservation helpers for `process_chunk` -/

/-- The audio-accumulation step never touches the enrollment or
activation fields. -/
theorem processChunkAudio_preserves (s : Session) (c : Chunk) (now : ℚ) :
    (processChunkAudio s c now).isEnrolled = s.isEnrolled ∧
    (processChunkAudio s c now).enrollAudioBuffer = s.enrollAudioBuffer ∧
    (processChunkAudio s c now).isActivated = s.isActivated ∧
    (processChunkAudio s c now).useSpeakerVerification = s.useSpeakerVerification ∧
    (processChunkAudio s c now).enrollAudioPath = s.enrollAudioPath ∧
    (processChunkAudio s c now).mode = s.mode := by
  unfold processChunkAudio
  split
  · dsimp only
    split <;> simp
  · split
    · dsimp only
      split <;> simp
    · simp

/-- The enrollment step never touches the ASR audio fields or the
activation flag. -/
theorem processChunkEnroll_preserves (s : Session) (c : Chunk) (ok : Bool) :
    (processChunkEnroll s c ok).audioBuffer = s.audioBuffer ∧
    (processChunkEnroll s c ok).preSpeechBuffer = s.preSpeechBuffer ∧
    (processChunkEnroll s c ok).hasDetectedSpeech = s.hasDetectedSpeech ∧
    (processChunkEnroll s c ok).silenceTimer = s.silenceTimer ∧
    (processChunkEnroll s c ok).silenceChunkCount = s.silenceChunkCount ∧
    (processChunkEnroll s c ok).lastVoiceTime = s.lastVoiceTime ∧
    (processChunkEnroll s c ok).isActivated = s.isActivated ∧
    (processChunkEnroll s c ok).useSpeakerVerification = s.useSpeakerVerification ∧
    (processChunkEnroll s c ok).mode = s.mode := by
  unfold processChunkEnroll
  split
  · dsimp only
    split
    · split <;> simp
    · simp
  · split <;> simp

/-- `process_chunk` never changes `is_activated`. -/
theorem processChunk_preserves_isActivated (s : Session) (c : Chunk) (now : ℚ)
    (ok : Bool) :
    (processChunk s c now ok).1.isActivated = s.isActivated := by
  unfold processChunk
  simp [(processChunkAudio_preserves _ _ _).2.2.1,
        (processChunkEnroll_preserves _ _ _).2.2.2.2.2.2.1]

/-- A chunk without speech leaves the enrollment logic untouched. -/
theorem processChunkEnroll_silent (s : Session) (c : Chunk) (ok : Bool)
    (hc : chunkIsSpeech c = false) :
    processChunkEnroll s c ok = s := by
  unfold processChunkEnroll
  simp [hc]

/-- A silent chunk arriving before any speech: the ASR buffer is
untouched, speech stays undetected, and the finalize flag is off. -/
theorem processChunk_silent_step (s : Session) (c : Chunk) (now : ℚ) (ok : Bool)
    (hc : chunkIsSpeech c = false) (hs : s.hasDetectedSpeech = false) :
    (processChunk s c now ok).1.audioBuffer = s.audioBuffer ∧
    (processChunk s c now ok).1.hasDetectedSpeech = false ∧
    (processChunk s c now ok).2 = false := by
  unfold processChunk
  rw [processChunkEnroll_silent s c ok hc]
  unfold processChunkAudio shouldFinalizeOf
  simp [hc, hs]

/-! ### C6: the finalize predicate and the pure-silence invariant -/

/-- Inductive part of C6: over any sequence of speechless chunks starting
from a state with an empty ASR buffer and no detected speech, the buffer
stays empty, speech stays undetected, and no step reports finalize. -/
theorem runChunks_silent (l : List (Chunk × ℚ)) (s : Session)
    (hl : ∀ p ∈ l, chunkIsSpeech p.1 = false)
    (hb : s.audioBuffer = []) (hs : s.hasDetectedSpeech = false) :
    (runChunks s l).audioBuffer = [] ∧
    (runChunks s l).hasDetectedSpeech = false ∧
    anyFinalize s l = false := by
  induction l generalizing s with
  | nil => exact ⟨hb, hs, rfl⟩
  | cons p rest ih =>
    obtain ⟨c, t⟩ := p
    have hc : chunkIsSpeech c = false := hl (c, t) (List.mem_cons_self _ _)
    have hstep := processChunk_silent_step s c t true hc hs
    have hrest := ih (processChunk s c t true).1
      (fun q hq => hl q (List.mem_cons_of_mem _ hq))
      (hstep.1.trans hb) hstep.2.1
    refine ⟨hrest.1, hrest.2.1, ?_⟩
    show ((processChunk s c t true).2 || _) = false
    rw [hstep.2.2, hrest.2.2, Bool.or_false]

/-- C6: (a) each `process_chunk` call reports finalize exactly when, on
the updated state, `silence_timer ≥ 2.0 s`, the ASR buffer is non-empty
and speech has been detected in the current utterance; (b) over any
chunk sequence with no speech chunk (from a fresh utterance state) the
buffer stays empty and finalize never fires. -/
theorem finalize_predicate_and_pure_silence :
    (∀ (s : Session) (c : Chunk) (now : ℚ) (ok : Bool),
      (processChunk s c now ok).2 =
        (decide (silenceThreshold ≤ (processChunk s c now ok).1.silenceTimer) &&
         decide ((0 : Nat) < (processChunk s c now ok).1.audioBuffer.length) &&
         (processChunk s c now ok).1.hasDetectedSpeech)) ∧
    (∀ (l : List (Chunk × ℚ)) (s : Session),
      (∀ p ∈ l, chunkIsSpeech p.1 = false) →
      s.audioBuffer = [] → s.hasDetectedSpeech = false →
      (runChunks s l).audioBuffer = [] ∧ anyFinalize s l = false) :=
  ⟨fun _ _ _ _ => rfl,
   fun l s hl hb hs => ⟨(runChunks_silent l s hl hb hs).1,
                        (runChunks_silent l s hl hb hs).2.2⟩⟩

/-- C6 witness: a single zero-valued (silent) chunk processed from a
fresh session triggers neither buffering nor finalize. -/
theorem finalize_predicate_and_pure_silence_witness :
    (runChunks (initSession 0) [(⟨[0], false⟩, 1)]).audioBuffer = [] ∧
    anyFinalize (initSession 0) [(⟨[0], false⟩, 1)] = false := by
  have hc : chunkIsSpeech (⟨[0], false⟩ : Chunk) = false := by
    have := chunkIsSpeech_ne_or_on_vad_only_chunk.1
    simpa [chunkIsSpeech, isSpeechEnergy, audioEnergy, audioMax, absQ, maxQ,
      vadUseAndLogic, vadEnergyThreshold, vadMaxThreshold] using this
  exact finalize_predicate_and_pure_silence.2 [(⟨[0], false⟩, 1)] (initSession 0)
    (by intro p hp; simp at hp; subst hp; exact hc) rfl rfl

/-! ### C10: the in-band auto-enrollment path of `process_chunk` -/

/-- The full `process_chunk` shows exactly the enrollment fields produced
by its enrollment step (the audio step does not touch them). -/
theorem processChunk_enroll_fields (s : Session) (c : Chunk) (now : ℚ) (ok : Bool) :
    (processChunk s c now ok).1.isEnrolled = (processChunkEnroll s c ok).isEnrolled ∧
    (processChunk s c now ok).1.enrollAudioBuffer = (processChunkEnroll s c ok).enrollAudioBuffer ∧
    (processChunk s c now ok).1.enrollAudioPath = (processChunkEnroll s c ok).enrollAudioPath := by
  unfold processChunk
  exact ⟨(processChunkAudio_preserves _ _ _).1, (processChunkAudio_preserves _ _ _).2.1,
         (processChunkAudio_preserves _ _ _).2.2.2.2.1⟩

/-- `process_chunk` never changes the session mode. -/
theorem processChunk_preserves_mode (s : Session) (c : Chunk) (now : ℚ) (ok : Bool) :
    (processChunk s c now ok).1.mode = s.mode := by
  unfold processChunk
  rw [(processChunkAudio_preserves _ _ _).2.2.2.2.2,
      (processChunkEnroll_preserves _ _ _).2.2.2.2.2.2.2.2]

/-- Behaviour of the enrollment step of `process_chunk` on an activated,
SV-enabled, not-yet-enrolled session receiving a speech chunk. -/
theorem processChunkEnroll_activated (s : Session) (c : Chunk)
    (ha : s.isActivated = true) (hsv : s.useSpeakerVerification = true)
    (he : s.isEnrolled = false) (hc : chunkIsSpeech c = true) :
    processChunkEnroll s c true =
      if minEnrollSeconds ≤ (((s.enrollAudioBuffer ++ c.samples).length : ℚ) / sampleRate) then
        { s with enrollAudioPath := some "sv_enroll/enroll.wav",
                 isEnrolled := true, enrollAudioBuffer := [] }
      else { s with enrollAudioBuffer := s.enrollAudioBuffer ++ c.samples } := by
  unfold processChunkEnroll
  simp [ha, hsv, he, hc]

/-- With the session not activated, `process_chunk` never changes the
enrollment flag. -/
theorem processChunk_isEnrolled_of_not_activated (s : Session) (c : Chunk)
    (now : ℚ) (ok : Bool) (h : s.isActivated = false) :
    (processChunk s c now ok).1.isEnrolled = s.isEnrolled := by
  rw [(processChunk_enroll_fields s c now ok).1]
  unfold processChunkEnroll
  simp only [h, Bool.and_false, Bool.false_and, if_neg (Bool.false_ne_true)]
  split <;> simp

/-- With the session not activated, no chunk sequence changes the
enrollment flag. -/
theorem runChunks_isEnrolled_of_not_activated (l : List (Chunk × ℚ)) (s : Session)
    (h : s.isActivated = false) :
    (runChunks s l).isEnrolled = s.isEnrolled := by
  induction l generalizing s with
  | nil => rfl
  | cons p rest ih =>
    obtain ⟨c, t⟩ := p
    show (runChunks (processChunk s c t true).1 rest).isEnrolled = s.isEnrolled
    rw [ih (processChunk s c t true).1
        (by rw [processChunk_preserves_isActivated]; exact h)]
    exact processChunk_isEnrolled_of_not_activated s c t true h

/-- C10: in `process_chunk` (the ASR_ACTIVE chunk handler), with SV
enabled and the session not yet enrolled:
(i) a non-activated session never changes its enrollment flag;
(ii) a speech chunk arriving while not activated discards any
accumulated enrollment audio;
(iii) an activated speech chunk accumulates into the enrollment buffer
and, exactly when the buffer reaches `min_enroll_seconds` of audio
(with a successful save), auto-enrolls — persisting the sample and
setting `is_enrolled` — with no trailing-silence requirement;
(iv) consequently a non-activated session can never become enrolled
through any sequence of chunk processing. -/
theorem processChunk_auto_enrollment :
    (∀ (s : Session) (c : Chunk) (now : ℚ) (ok : Bool),
      s.isActivated = false →
      (processChunk s c now ok).1.isEnrolled = s.isEnrolled) ∧
    (∀ (s : Session) (c : Chunk) (now : ℚ) (ok : Bool),
      s.isActivated = false → s.useSpeakerVerification = true →
      s.isEnrolled = false → chunkIsSpeech c = true →
      (processChunk s c now ok).1.enrollAudioBuffer = []) ∧
    (∀ (s : Session) (c : Chunk) (now : ℚ),
      s.isActivated = true → s.useSpeakerVerification = true →
      s.isEnrolled = false → chunkIsSpeech c = true →
      (if minEnrollSeconds ≤ (((s.enrollAudioBuffer ++ c.samples).length : ℚ) / sampleRate) then
        (processChunk s c now true).1.isEnrolled = true ∧
        (processChunk s c now true).1.enrollAudioBuffer = [] ∧
        (processChunk s c now true).1.enrollAudioPath = some "sv_enroll/enroll.wav"
      else
        (processChunk s c now true).1.isEnrolled = false ∧
        (processChunk s c now true).1.enrollAudioBuffer = s.enrollAudioBuffer ++ c.samples)) ∧
    (∀ (l : List (Chunk × ℚ)) (s : Session),
      s.isActivated = false →
      (runChunks s l).isEnrolled = s.isEnrolled) := by
  refine ⟨processChunk_isEnrolled_of_not_activated, ?_, ?_,
          runChunks_isEnrolled_of_not_activated⟩
  · intro s c now ok ha hsv he hc
    rw [(processChunk_enroll_fields s c now ok).2.1]
    unfold processChunkEnroll
    simp [ha, hsv, he, hc]
  · intro s c now ha hsv he hc
    have hf := processChunk_enroll_fields s c now true
    rw [processChunkEnroll_activated s c ha hsv he hc] at hf
    split
    · next hlen =>
      rw [if_pos hlen] at hf
      rw [hf.1, hf.2.1, hf.2.2]
      simp
    · next hlen =>
      rw [if_neg hlen] at hf
      rw [hf.1, hf.2.1]
      simp [he]

/-- C10 witness: an activated, SV-enabled session whose enrollment buffer
holds 79 999 samples auto-enrolls on a one-sample speech chunk (exactly
5 s accumulated), while a fresh (non-activated) session processing a
speech chunk stays unenrolled. -/
theorem processChunk_auto_enrollment_witness :
    (processChunk ({ (initSession 0) with
                     mode := Mode.asrActive, isActivated := true,
                     enrollAudioBuffer := List.replicate 79999 1 }) ⟨[1], false⟩ 1
        true).1.isEnrolled = true ∧
    (runChunks (initSession 0) [(⟨[1], false⟩, 1)]).isEnrolled = false := by
  have hc : chunkIsSpeech (⟨[1], false⟩ : Chunk) = true := by
    norm_num [chunkIsSpeech, isSpeechEnergy, audioEnergy, audioMax, absQ, maxQ,
      vadUseAndLogic, vadEnergyThreshold, vadMaxThreshold]
  constructor
  · have h3 := processChunk_auto_enrollment.2.2.1
      ({ (initSession 0) with
         mode := Mode.asrActive, isActivated := true,
         enrollAudioBuffer := List.replicate 79999 1 }) ⟨[1], false⟩ 1
      rfl rfl rfl hc
    rw [if_pos ?_] at h3
    · exact h3.1
    · show minEnrollSeconds ≤ ((List.replicate 79999 (1:ℚ) ++ [1]).length : ℚ) / sampleRate
      rw [List.length_append, List.length_replicate]
      norm_num [minEnrollSeconds, sampleRate]
  · exact processChunk_auto_enrollment.2.2.2 [(⟨[1], false⟩, 1)] (initSession 0) rfl

/-! ### C4: enrollment acceptance in the `WAITING_FOR_ENROLLMENT` handler -/

/-- The VAD bookkeeping of the enrollment handler does not touch the
enrollment flag, buffer, path, or mode. -/
theorem enrollVadUpdate_preserves (s : Session) (c : Chunk) (now : ℚ) :
    (enrollVadUpdate s c now).isEnrolled = s.isEnrolled ∧
    (enrollVadUpdate s c now).enrollAudioBuffer = s.enrollAudioBuffer ∧
    (enrollVadUpdate s c now).enrollAudioPath = s.enrollAudioPath ∧
    (enrollVadUpdate s c now).mode = s.mode := by
  unfold enrollVadUpdate
  split
  · dsimp only
    split <;> simp
  · split
    · split <;> simp
    · simp

/-- `enroll_duration_from_first_speech` only reads the first-speech
timestamp. -/
theorem enrollDurationFromFirstSpeech_congr (s s' : Session) (now : ℚ)
    (h : s.enrollFirstSpeechTime = s'.enrollFirstSpeechTime) :
    enrollDurationFromFirstSpeech s now = enrollDurationFromFirstSpeech s' now := by
  unfold enrollDurationFromFirstSpeech
  rw [h]

/-- Characterization of when the enrollment handler accepts. -/
theorem enrollmentStep_accepted_iff (s : Session) (c : Chunk) (now : ℚ) (ok : Bool) :
    (enrollmentStep s c now ok).accepted = true ↔
      (ok = true ∧ s.isEnrolled = false ∧
       (enrollVadUpdate s c now).enrollHasDetectedSpeech = true ∧
       minEnrollSeconds ≤ enrollDurationFromFirstSpeech (enrollVadUpdate s c now) now ∧
       (2 : ℚ) ≤ (enrollVadUpdate s c now).enrollSilenceTimer) := by
  have hu := (enrollVadUpdate_preserves s c now).1
  unfold enrollmentStep
  by_cases hd : (enrollVadUpdate s c now).enrollHasDetectedSpeech = true
  · rw [if_pos hd]
    dsimp only
    by_cases h1 : minEnrollSeconds ≤ enrollDurationFromFirstSpeech (enrollVadUpdate s c now) now <;>
      by_cases h2 : (2 : ℚ) ≤ (enrollVadUpdate s c now).enrollSilenceTimer <;>
        cases ok <;>
          simp [h1, h2, hd, hu, apply_ite EnrollOutcome.accepted]
  · rw [if_neg hd]
    simp only [Bool.not_eq_true] at hd
    simp [hd]

/-- On acceptance, the enrollment handler persists the sample, sets the
enrollment flag and transitions to the confirm mode. -/
theorem enrollmentStep_accept_effects (s : Session) (c : Chunk) (now : ℚ) (ok : Bool)
    (h : (enrollmentStep s c now ok).accepted = true) :
    (enrollmentStep s c now ok).session.mode = Mode.waitingForEnrollmentConfirm ∧
    (enrollmentStep s c now ok).session.isEnrolled = true ∧
    (enrollmentStep s c now ok).session.enrollAudioPath = some "sv_enroll/enroll.wav" := by
  obtain ⟨hok, he, hd, h1, h2⟩ := (enrollmentStep_accepted_iff s c now ok).mp h
  have hu := (enrollVadUpdate_preserves s c now).1
  unfold enrollmentStep
  rw [if_pos hd]
  dsimp only
  rw [if_pos (by simp [h1, h2, hu, he]), if_pos hok]
  exact ⟨rfl, rfl, rfl⟩

/-- C4 (amended): in the `WAITING_FOR_ENROLLMENT` handler, enrollment is
accepted — and only then are the sample persisted, `is_enrolled` set,
the mode switched to `WAITING_FOR_ENROLLMENT_CONFIRM` and
`enrollment_completed` emitted — exactly when, after this chunk's VAD
bookkeeping, all of the following hold: the save succeeds, the session
was not already enrolled, speech has been detected, at least
`min_enroll_seconds` elapsed since the first detected speech, and at
least 2.0 s of trailing silence accumulated.  (The exclusivity clause of
the original claim fails: see the counterexample, the `process_chunk`
auto-enrollment path also captures and accepts enrollment.) -/
theorem enrollment_step_accept_iff :
    (∀ (s : Session) (c : Chunk) (now : ℚ) (ok : Bool),
      (enrollmentStep s c now ok).accepted = true ↔
        (ok = true ∧ s.isEnrolled = false ∧
         (enrollVadUpdate s c now).enrollHasDetectedSpeech = true ∧
         minEnrollSeconds ≤ enrollDurationFromFirstSpeech (enrollVadUpdate s c now) now ∧
         (2 : ℚ) ≤ (enrollVadUpdate s c now).enrollSilenceTimer)) ∧
    (∀ (s : Session) (c : Chunk) (now : ℚ) (ok : Bool),
      (enrollmentStep s c now ok).accepted = true →
        (enrollmentStep s c now ok).session.mode = Mode.waitingForEnrollmentConfirm ∧
        (enrollmentStep s c now ok).session.isEnrolled = true ∧
        (enrollmentStep s c now ok).session.enrollAudioPath = some "sv_enroll/enroll.wav") :=
  ⟨enrollmentStep_accepted_iff, enrollmentStep_accept_effects⟩

/-- C4 counterexample: the claim's "only in `WaitingForEnrollment`, only
with 2 s trailing silence" is violated by the auto-enrollment path of
`process_chunk`: a reachable `ASR_ACTIVE` session (activated via wake,
`start_asr` sent before enrollment finished) enrolls on a speech chunk —
sample persisted and `is_enrolled` set — while the mode stays
`ASR_ACTIVE` (no transition, no `enrollment_completed`) and the trailing
silence is 0 (the chunk is speech). -/
theorem enrollment_accepted_outside_enrollment_mode :
    (processChunk ({ (initSession 0) with
                     mode := Mode.asrActive, isActivated := true,
                     enrollAudioBuffer := List.replicate 79999 1 }) ⟨[1], false⟩ 1
        true).1.isEnrolled = true ∧
    (processChunk ({ (initSession 0) with
                     mode := Mode.asrActive, isActivated := true,
                     enrollAudioBuffer := List.replicate 79999 1 }) ⟨[1], false⟩ 1
        true).1.enrollAudioPath = some "sv_enroll/enroll.wav" ∧
    (processChunk ({ (initSession 0) with
                     mode := Mode.asrActive, isActivated := true,
                     enrollAudioBuffer := List.replicate 79999 1 }) ⟨[1], false⟩ 1
        true).1.mode = Mode.asrActive ∧
    ({ (initSession 0) with
       mode := Mode.asrActive, isActivated := true,
       enrollAudioBuffer := List.replicate 79999 1 } : Session).enrollSilenceTimer = 0 := by
  have hc : chunkIsSpeech (⟨[1], false⟩ : Chunk) = true := by
    norm_num [chunkIsSpeech, isSpeechEnergy, audioEnergy, audioMax, absQ, maxQ,
      vadUseAndLogic, vadEnergyThreshold, vadMaxThreshold]
  have hf := processChunk_enroll_fields
    ({ (initSession 0) with
       mode := Mode.asrActive, isActivated := true,
       enrollAudioBuffer := List.replicate 79999 1 }) ⟨[1], false⟩ 1 true
  rw [processChunkEnroll_activated _ _ rfl rfl rfl hc] at hf
  rw [if_pos ?_] at hf
  · refine ⟨by rw [hf.1], by rw [hf.2.2], ?_, rfl⟩
    rw [processChunk_preserves_mode]
  · show minEnrollSeconds ≤ ((List.replicate 79999 (1:ℚ) ++ [1]).length : ℚ) / sampleRate
    rw [List.length_append, List.length_replicate]
    norm_num [minEnrollSeconds, sampleRate]

/-- C4 witness: a session in `WAITING_FOR_ENROLLMENT` that detected first
speech at t=1 and last speech at t=2 receives a silent chunk at t=7:
6 s elapsed since first speech and 5 s of trailing silence, so the
handler accepts and transitions to the confirm mode. -/
theorem enrollment_step_accept_witness :
    (enrollmentStep ({ (initSession 0) with
                       mode := Mode.waitingForEnrollment,
                       isActivated := true,
                       enrollHasDetectedSpeech := true,
                       enrollFirstSpeechTime := some 1,
                       enrollLastVoiceTime := some 2 }) ⟨[0], false⟩ 7 true).accepted = true ∧
    (enrollmentStep ({ (initSession 0) with
                       mode := Mode.waitingForEnrollment,
                       isActivated := true,
                       enrollHasDetectedSpeech := true,
                       enrollFirstSpeechTime := some 1,
                       enrollLastVoiceTime := some 2 }) ⟨[0], false⟩ 7 true).session.mode =
      Mode.waitingForEnrollmentConfirm := by
  have hsil : enrollIsSpeech (⟨[0], false⟩ : Chunk) = false := by
    norm_num [enrollIsSpeech, isSpeechEnergy, audioEnergy, audioMax, absQ, maxQ,
      vadUseAndLogic, vadEnergyThreshold, vadMaxThreshold]
  have hv : enrollVadUpdate ({ (initSession 0) with
      mode := Mode.waitingForEnrollment, isActivated := true,
      enrollHasDetectedSpeech := true, enrollFirstSpeechTime := some 1,
      enrollLastVoiceTime := some 2 }) ⟨[0], false⟩ 7 =
      ({ (initSession 0) with
         mode := Mode.waitingForEnrollment, isActivated := true,
         enrollHasDetectedSpeech := true, enrollFirstSpeechTime := some 1,
         enrollLastVoiceTime := some 2, enrollSilenceTimer := 5 }) := by
    unfold enrollVadUpdate
    rw [hsil]
    norm_num [initSession]
  have hacc := (enrollment_step_accept_iff.1 ({ (initSession 0) with
      mode := Mode.waitingForEnrollment, isActivated := true,
      enrollHasDetectedSpeech := true, enrollFirstSpeechTime := some 1,
      enrollLastVoiceTime := some 2 }) ⟨[0], false⟩ 7 true).mpr ?_
  · exact ⟨hacc, (enrollment_step_accept_iff.2 _ _ _ _ hacc).1⟩
  · refine ⟨rfl, rfl, ?_, ?_, ?_⟩
    · rw [hv]
    · rw [hv]
      norm_num [enrollDurationFromFirstSpeech, minEnrollSeconds, initSession]
    · rw [hv]
      norm_num [initSession]

/-! ### C5: the KWS wake transition -/

/-- C5 (amended): whenever KWS detection fires on a chunk in
`WAITING_FOR_WAKEUP` (the window is full and the wake text is non-empty
and not `"rejected"`), the handler emits exactly `wakeup:activated`,
transitions to `WAITING_FOR_ENROLLMENT`, sets `is_activated`, clears the
KWS buffer and the ASR state of voice_interface.py lines 1450–1459
(audio buffer, accumulated text, silence timer), and skips the chunk's
downstream processing (the chunk's samples reach neither the ASR buffer,
which ends empty, nor the pre-speech buffer) — but it does NOT clear the
`pre_speech_buffer` (nor `has_detected_speech` / `silence_chunk_count`),
which survive the transition unchanged. -/
theorem wakeupStep_wake_spec (s : Session) (c : Chunk) (now : ℚ)
    (kws : Option String)
    (hlen : kwsMinDuration ≤
      (((slidingWindow kwsWindowCap (s.kwsAudioBuffer ++ c.samples)).length : ℚ) / sampleRate))
    (hw : kwsWake kws = true) :
    (wakeupStep s c now kws).2 = [Event.wakeupActivated] ∧
    (wakeupStep s c now kws).1.mode = Mode.waitingForEnrollment ∧
    (wakeupStep s c now kws).1.isActivated = true ∧
    (wakeupStep s c now kws).1.audioBuffer = [] ∧
    (wakeupStep s c now kws).1.accumulatedIntermediateText = "" ∧
    (wakeupStep s c now kws).1.kwsAudioBuffer = [] ∧
    (wakeupStep s c now kws).1.silenceTimer = 0 ∧
    (wakeupStep s c now kws).1.preSpeechBuffer = s.preSpeechBuffer ∧
    (wakeupStep s c now kws).1.hasDetectedSpeech = s.hasDetectedSpeech ∧
    (wakeupStep s c now kws).1.silenceChunkCount = s.silenceChunkCount := by
  unfold wakeupStep
  dsimp only
  rw [if_pos hlen, if_pos hw]
  simp

/-- C5 (amended): see `wakeupStep_wake_spec`; whenever KWS detection
fires, the handler emits exactly `wakeup:activated`, transitions to
`WAITING_FOR_ENROLLMENT`, sets `is_activated`, clears the KWS buffer and
the ASR audio buffer / accumulated text / silence timer, and the chunk
reaches no downstream processing — but the `pre_speech_buffer` (and
`has_detected_speech`, `silence_chunk_count`) survive unchanged. -/
theorem wake_transition_effects (s : Session) (c : Chunk) (now : ℚ)
    (kws : Option String)
    (hlen : kwsMinDuration ≤
      (((slidingWindow kwsWindowCap (s.kwsAudioBuffer ++ c.samples)).length : ℚ) / sampleRate))
    (hw : kwsWake kws = true) :
    (wakeupStep s c now kws).2 = [Event.wakeupActivated] ∧
    (wakeupStep s c now kws).1.mode = Mode.waitingForEnrollment ∧
    (wakeupStep s c now kws).1.isActivated = true ∧
    (wakeupStep s c now kws).1.audioBuffer = [] ∧
    (wakeupStep s c now kws).1.accumulatedIntermediateText = "" ∧
    (wakeupStep s c now kws).1.kwsAudioBuffer = [] ∧
    (wakeupStep s c now kws).1.silenceTimer = 0 ∧
    (wakeupStep s c now kws).1.preSpeechBuffer = s.preSpeechBuffer ∧
    (wakeupStep s c now kws).1.hasDetectedSpeech = s.hasDetectedSpeech ∧
    (wakeupStep s c now kws).1.silenceChunkCount = s.silenceChunkCount :=
  wakeupStep_wake_spec s c now kws hlen hw

/-- C5 counterexample: a wake firing while the pre-speech buffer is
non-empty (reachable by toggling `use_wake` back on during `ASR_ACTIVE`,
which moves to `WAITING_FOR_WAKEUP` without clearing ASR buffers) leaves
the `pre_speech_buffer` uncleared, contradicting the claimed atomic
clear of "all ASR state including the preSpeechBuffer". -/
theorem wake_transition_keeps_preSpeechBuffer :
    (wakeupStep ({ (initSession 0) with
                   preSpeechBuffer := [1/10],
                   kwsAudioBuffer := List.replicate 25599 0 }) ⟨[0], false⟩ 1
        (some "小护")).2 = [Event.wakeupActivated] ∧
    (wakeupStep ({ (initSession 0) with
                   preSpeechBuffer := [1/10],
                   kwsAudioBuffer := List.replicate 25599 0 }) ⟨[0], false⟩ 1
        (some "小护")).1.preSpeechBuffer = [1/10] ∧
    ([1/10] : List ℚ) ≠ [] := by
  have h1 : (List.replicate 25599 (0:ℚ) ++ [0]).length = 25600 := by
    rw [List.length_append, List.length_replicate]
    rfl
  have hsw : slidingWindow kwsWindowCap (List.replicate 25599 (0:ℚ) ++ [0]) =
      List.replicate 25599 (0:ℚ) ++ [0] := by
    unfold slidingWindow
    rw [h1]
    norm_num [kwsWindowCap]
  have h := wakeupStep_wake_spec
    ({ (initSession 0) with
       preSpeechBuffer := [1/10],
       kwsAudioBuffer := List.replicate 25599 0 }) ⟨[0], false⟩ 1 (some "小护")
    (by rw [hsw, h1]; norm_num [kwsMinDuration, sampleRate])
    (by decide)
  exact ⟨h.1, h.2.2.2.2.2.2.2.1, by simp⟩

/-- C5 witness: the amended wake-transition theorem applied to a
concrete full-window session with a non-empty pre-speech buffer. -/
theorem wake_transition_effects_witness :
    (wakeupStep ({ (initSession 0) with
                   preSpeechBuffer := [1/5],
                   kwsAudioBuffer := List.replicate 25599 0 }) ⟨[0], true⟩ 2
        (some "小护")).2 = [Event.wakeupActivated] ∧
    (wakeupStep ({ (initSession 0) with
                   preSpeechBuffer := [1/5],
                   kwsAudioBuffer := List.replicate 25599 0 }) ⟨[0], true⟩ 2
        (some "小护")).1.mode = Mode.waitingForEnrollment ∧
    (wakeupStep ({ (initSession 0) with
                   preSpeechBuffer := [1/5],
                   kwsAudioBuffer := List.replicate 25599 0 }) ⟨[0], true⟩ 2
        (some "小护")).1.audioBuffer = [] := by
  have h1 : (List.replicate 25599 (0:ℚ) ++ [0]).length = 25600 := by
    rw [List.length_append, List.length_replicate]
    rfl
  have hsw : slidingWindow kwsWindowCap (List.replicate 25599 (0:ℚ) ++ [0]) =
      List.replicate 25599 (0:ℚ) ++ [0] := by
    unfold slidingWindow
    rw [h1]
    norm_num [kwsWindowCap]
  have h := wake_transition_effects
    ({ (initSession 0) with
       preSpeechBuffer := [1/5],
       kwsAudioBuffer := List.replicate 25599 0 }) ⟨[0], true⟩ 2 (some "小护")
    (by rw [hsw, h1]; norm_num [kwsMinDuration, sampleRate])
    (by decide)
  exact ⟨h.1, h.2.1, h.2.2.2.1⟩

/-! ### C7: the empty-result policy, and C9: corrector idempotence -/

/-- C7 counterexample: the finalize empty-result check misses `呦` (and
`妈`), so the raw result `"呦"` passes the filter, the hard-correction
regex then strips it, and the reply is emitted with `success = true` and
text that is empty (hence empty after stripping punctuation and
interjections) — contradicting the claimed policy. -/
theorem empty_after_strip_emitted_success :
    (emitResult (finalizeTextFilter "呦")).success = true ∧
    (emitResult (finalizeTextFilter "呦")).text = "" ∧
    strippedContent (emitResult (finalizeTextFilter "呦")).text = "" := by
  refine ⟨?_, ?_, ?_⟩ <;> decide

/-- C7 (amended): the empty-result policy lives in `finalize`, before the
correction passes, with the 14-character interjection set: whenever the
punctuation-stripped text consists only of those interjections (in
particular when it is empty), finalize returns `ASR_RESULT_EMPTY` and
the emitted reply is the failure reply (`success = false`, the retry
message).  Text made of `呦`/`妈` escapes this policy (see the
counterexample). -/
theorem finalize_empty_filter_policy (raw : String)
    (h : (stripPunct (pyStrip raw)).toList.all
        (fun ch => interjectionChars14.contains ch) = true) :
    finalizeTextFilter raw = ASR_RESULT_EMPTY ∧
    emitResult (finalizeTextFilter raw) = ⟨false, "", some retryMessage⟩ := by
  have hfilter : finalizeTextFilter raw = ASR_RESULT_EMPTY := by
    unfold finalizeTextFilter
    split
    · rfl
    · dsimp only
      by_cases htw : stripPunct (pyStrip raw) = ""
      · rw [if_neg (not_not_intro htw)]
      · rw [if_pos htw, if_pos h]
  refine ⟨hfilter, ?_⟩
  rw [hfilter]
  decide

/-- C7 witness: the raw result `"嗯嗯。"` (interjections plus punctuation)
is filtered to `ASR_RESULT_EMPTY` and emitted as a failure reply. -/
theorem finalize_empty_filter_policy_witness :
    finalizeTextFilter "嗯嗯。" = ASR_RESULT_EMPTY ∧
    emitResult (finalizeTextFilter "嗯嗯。") = ⟨false, "", some retryMessage⟩ :=
  finalize_empty_filter_policy "嗯嗯。" (by decide)

end VoicePipeline

namespace TTSConcat

/-! ### C8: output duration of the smooth concatenation -/

/-- `msToFrames` is monotone in the duration. -/
theorem msToFrames_mono (sr : Nat) {a b : Nat} (h : a ≤ b) :
    msToFrames sr a ≤ msToFrames sr b :=
  Nat.div_le_div_right (Nat.mul_le_mul_left _ h)

/-- Both pauses dominate the crossfade length. -/
theorem pauseForSegment_ge_crossfade (t : String) :
    crossfadeMsDefault ≤ pauseForSegment t := by
  unfold pauseForSegment
  split
  · split <;> norm_num [pauseHardMs, pauseSoftMs, crossfadeMsDefault]
  · norm_num [pauseHardMs, crossfadeMsDefault]

/-- Summing a constant map counts the list. -/
theorem sum_map_constFrames (sr fadeMs : Nat) :
    ∀ (l : List (List Int)),
      (l.map (fun _ => msToFrames sr fadeMs)).sum = l.length * msToFrames sr fadeMs := by
  intro l
  induction l with
  | nil => simp
  | cons x xs ih =>
    simp only [List.map_cons, List.sum_cons, List.length_cons, ih, Nat.succ_mul]
    omega

/-- Length accounting for one crossfaded boundary: when both sides hold
at least the fade window, the joined output is one fade window shorter
than the plain concatenation. -/
theorem crossfadeFrames_length (a b : List Int) (fadeMs sr : Nat)
    (hfm : fadeMs ≠ 0)
    (ha : msToFrames sr fadeMs ≤ a.length) (hb : msToFrames sr fadeMs ≤ b.length) :
    (crossfadeFrames a b fadeMs sr).1.length + (crossfadeFrames a b fadeMs sr).2.length
      = a.length + b.length - msToFrames sr fadeMs := by
  unfold crossfadeFrames
  rw [if_neg hfm]
  dsimp only
  by_cases h0 : msToFrames sr fadeMs = 0
  · rw [if_pos h0, h0]
    simp
  · rw [if_neg h0, if_neg ?_]
    · dsimp only
      simp only [List.length_append, List.length_take, List.length_drop,
        List.length_map, List.length_range]
      omega
    · simp only [Bool.or_eq_true, decide_eq_true_eq, not_or]
      exact ⟨Nat.not_lt.mpr ha, Nat.not_lt.mpr hb⟩

/-- One step of the concatenation loop, unfolded. -/
theorem concatLoop_cons (fadeMs sr : Nat) (out b : List Int)
    (rest : List (List Int)) (ps : List Nat) :
    concatLoop fadeMs sr out (b :: rest) ps =
      concatLoop fadeMs sr
        ((crossfadeFrames
            (if 0 < ps.headD 0
             then out ++ List.replicate (msToFrames sr (ps.headD 0)) 0
             else out) b fadeMs sr).1 ++
         (crossfadeFrames
            (if 0 < ps.headD 0
             then out ++ List.replicate (msToFrames sr (ps.headD 0)) 0
             else out) b fadeMs sr).2)
        rest ps.tail := rfl

/-- Length invariant of the concatenation loop: each boundary adds its
pause and its segment and removes one fade window. -/
theorem concatLoop_length (fadeMs sr : Nat) (hfm : fadeMs ≠ 0) :
    ∀ (rest : List (List Int)) (ps : List Nat) (out : List Int),
      ps.length = rest.length →
      (∀ b ∈ rest, msToFrames sr fadeMs ≤ b.length) →
      (∀ p ∈ ps, fadeMs ≤ p) →
      (concatLoop fadeMs sr out rest ps).length
          + (rest.map (fun _ => msToFrames sr fadeMs)).sum
        = out.length + (rest.map List.length).sum + (ps.map (msToFrames sr)).sum := by
  intro rest
  induction rest with
  | nil =>
    intro ps out hlen _ _
    have : ps = [] := List.eq_nil_of_length_eq_zero (by simpa using hlen)
    subst this
    simp [concatLoop]
  | cons b rest ih =>
    intro ps out hlen hb hp
    cases ps with
    | nil => exact absurd hlen (by simp)
    | cons p ps' =>
      have hpos : 0 < p :=
        lt_of_lt_of_le (Nat.pos_of_ne_zero hfm) (hp p (List.mem_cons_self _ _))
      rw [concatLoop_cons]
      dsimp only [List.headD, List.tail]
      rw [if_pos hpos]
      have ha : msToFrames sr fadeMs ≤ (out ++ List.replicate (msToFrames sr p) 0).length := by
        have : msToFrames sr fadeMs ≤ msToFrames sr p :=
          msToFrames_mono sr (hp p (List.mem_cons_self _ _))
        rw [List.length_append, List.length_replicate]
        omega
      have hcf := crossfadeFrames_length (out ++ List.replicate (msToFrames sr p) 0) b
        fadeMs sr hfm ha (hb b (List.mem_cons_self _ _))
      have hrec := ih ps'
        ((crossfadeFrames (out ++ List.replicate (msToFrames sr p) 0) b fadeMs sr).1 ++
         (crossfadeFrames (out ++ List.replicate (msToFrames sr p) 0) b fadeMs sr).2)
        (by simpa using hlen)
        (fun x hx => hb x (List.mem_cons_of_mem _ hx))
        (fun q hq => hp q (List.mem_cons_of_mem _ hq))
      rw [List.length_append] at hrec
      rw [List.length_append, List.length_replicate] at hcf
      simp only [List.map_cons, List.sum_cons]
      have hsil : msToFrames sr fadeMs ≤ msToFrames sr p :=
        msToFrames_mono sr (hp p (List.mem_cons_self _ _))
      have hble := hb b (List.mem_cons_self _ _)
      omega

/-- C8: for segments of identical format (16-bit mono at rate `sr`), each
holding at least one crossfade window of samples, the concatenated
output's sample count equals the sum of the segment sample counts plus
the inserted pause frames minus one crossfade window (60 ms) per
boundary — the pause after a segment being 200 ms when it ends in strong
punctuation (`。！？；` or newline) and 120 ms otherwise.  Stated over
frame counts, the claim's "within ±1 sample" tolerance is met exactly. -/
theorem concat_duration (sr : Nat) (segs : List Segment) (hne : segs ≠ [])
    (hlong : ∀ g ∈ segs, msToFrames sr crossfadeMsDefault ≤ g.pcm.length) :
    (concatWavsSmooth (segs.map (fun g => g.pcm)) (pausesFor segs)
        crossfadeMsDefault sr).length
      + (segs.length - 1) * msToFrames sr crossfadeMsDefault
      = (segs.map (fun g => g.pcm.length)).sum
        + ((pausesFor segs).map (msToFrames sr)).sum := by
  obtain ⟨g0, rest, rfl⟩ := List.exists_cons_of_ne_nil hne
  have hfm : crossfadeMsDefault ≠ 0 := by norm_num [crossfadeMsDefault]
  have hlenp : (pausesFor (g0 :: rest)).length = (rest.map (fun g => g.pcm)).length := by
    simp [pausesFor, List.length_dropLast]
  have hrest : ∀ b ∈ rest.map (fun g => g.pcm), msToFrames sr crossfadeMsDefault ≤ b.length := by
    intro b hbm
    obtain ⟨g, hg, rfl⟩ := List.mem_map.mp hbm
    exact hlong g (List.mem_cons_of_mem _ hg)
  have hpp : ∀ p ∈ pausesFor (g0 :: rest), crossfadeMsDefault ≤ p := by
    intro p hpm
    obtain ⟨g, _, rfl⟩ := List.mem_map.mp hpm
    exact pauseForSegment_ge_crossfade _
  have h := concatLoop_length crossfadeMsDefault sr hfm (rest.map (fun g => g.pcm))
    (pausesFor (g0 :: rest)) g0.pcm hlenp hrest hpp
  rw [sum_map_constFrames] at h
  rw [List.length_map] at h
  have hmm : ((rest.map (fun g => g.pcm)).map List.length).sum
      = (rest.map (fun g => g.pcm.length)).sum := by
    rw [List.map_map]; rfl
  rw [hmm] at h
  show (concatLoop _ _ _ _ _).length + _ = _
  simp only [List.map_cons, List.sum_cons, List.length_cons, Nat.add_sub_cancel]
  generalize msToFrames sr crossfadeMsDefault = F at h ⊢
  generalize rest.length * F = K at h ⊢
  omega

/-- First witness segment: one second of silence, strong-stop tail. -/
def c8seg1 : Segment := ⟨"测试一。", List.replicate 16000 0⟩

/-- Second witness segment: one second of silence, soft tail. -/
def c8seg2 : Segment := ⟨"测试二，", List.replicate 16000 0⟩

/-- C8 witness: two one-second segments at 16 kHz, the first ending in a
strong stop (hard pause 3200 frames), one boundary (960-frame fade):
the output holds 16000 + 16000 + 3200 − 960 = 34240 samples. -/
theorem concat_duration_witness :
    (concatWavsSmooth ([c8seg1, c8seg2].map (fun g => g.pcm))
        (pausesFor [c8seg1, c8seg2]) crossfadeMsDefault 16000).length
      + 1 * msToFrames 16000 crossfadeMsDefault = 35200 := by
  have hlen1 : c8seg1.pcm.length = 16000 := by
    rw [show c8seg1.pcm = List.replicate 16000 0 from rfl, List.length_replicate]
  have hlen2 : c8seg2.pcm.length = 16000 := by
    rw [show c8seg2.pcm = List.replicate 16000 0 from rfl, List.length_replicate]
  have h60 : msToFrames 16000 crossfadeMsDefault = 960 := by
    norm_num [msToFrames, crossfadeMsDefault]
  have h := concat_duration 16000 [c8seg1, c8seg2] (by simp)
    (by
      intro g hg
      simp only [List.mem_cons, List.not_mem_nil, or_false] at hg
      rcases hg with rfl | rfl
      · rw [h60, hlen1]; norm_num
      · rw [h60, hlen2]; norm_num)
  have hp : pausesFor [c8seg1, c8seg2] = [200] := rfl
  have h200 : msToFrames 16000 200 = 3200 := by norm_num [msToFrames]
  have hA : ([c8seg1, c8seg2].map (fun g => g.pcm.length)).sum = 32000 := by
    simp only [List.map_cons, List.map_nil, List.sum_cons, List.sum_nil, hlen1, hlen2]
    norm_num
  have hB : ((pausesFor [c8seg1, c8seg2]).map (msToFrames 16000)).sum = 3200 := by
    rw [hp]
    simp only [List.map_cons, List.map_nil, List.sum_cons, List.sum_nil, h200]
    norm_num
  have hC : ([c8seg1, c8seg2].length - 1) = 1 := rfl
  rw [hA, hB, hC, h60] at h
  rw [h60]
  omega

end TTSConcat
